import Mathlib

/-!
Verification of the weather retrieval and normalization pipeline of the
Weather-Data-Module repository, shallowly embedded in Lean 4.

Conventions of the embedding:
* Python `float` is modelled by `ℚ`; Python `Optional[T]` by `Option T`.
* Python truthiness on optional numbers / strings is modelled explicitly
  (`none`, `0` and `""` are falsy) where the source relies on it.
* JSON payload values are modelled by `JVal` (number, string or null);
  JSON objects by association lists looked up from the left.
* Fallible Python code (exceptions) is modelled with `Except String`.
* Python `str(...)` rendering of numbers is modelled by `toString` on ℚ / ℕ;
  no claim depends on the exact digits produced.
-/

namespace WeatherModule

/-- JSON-like scalar value appearing in a provider payload. -/
inductive JVal where
  | num (q : ℚ)
  | str (s : String)
  | null
deriving DecidableEq, Repr

/-- Model of `models.Location` (all fields optional, default `None`). -/
structure Location where
  city : Option String := none
  country : Option String := none
  state : Option String := none
  zip_code : Option String := none
  ip_address : Option String := none
  latitude : Option ℚ := none
  longitude : Option ℚ := none
deriving DecidableEq, Repr

/-- Python truthiness of an optional float: `None` and `0.0` are falsy. -/
def truthyF (o : Option ℚ) : Bool :=
  match o with
  | some q => q != 0
  | none => false

/-- Python truthiness of an optional string: `None` and `""` are falsy. -/
def truthyS (o : Option String) : Bool :=
  match o with
  | some s => s != ""
  | none => false

/-- Rendering of an optional float inside an f-string, as in `f"{self.latitude}"`.
The source only renders it under a truthiness guard, so the `none` case is
unreachable there (Python would print `"None"`). -/
def pyShowF (o : Option ℚ) : String :=
  match o with
  | some q => toString q
  | none => "None"

/-- Value of a truthy optional string (only read under a truthiness guard). -/
def pyGetS (o : Option String) : String := o.getD ""

/-- Model of `Location.to_query` (models/models.py): the nine-way precedence
chain, with the `ValueError` modelled as `Except.error`. -/
def Location.to_query (loc : Location) : Except String String :=
  if truthyF loc.latitude && truthyF loc.longitude then
    .ok (pyShowF loc.latitude ++ "," ++ pyShowF loc.longitude)
  else if truthyS loc.zip_code then .ok (pyGetS loc.zip_code)
  else if truthyS loc.ip_address then .ok (pyGetS loc.ip_address)
  else if truthyS loc.city && truthyS loc.country then
    .ok (pyGetS loc.city ++ "," ++ pyGetS loc.country)
  else if truthyS loc.city && truthyS loc.state then
    .ok (pyGetS loc.city ++ "," ++ pyGetS loc.state)
  else if truthyS loc.city then .ok (pyGetS loc.city)
  else if truthyS loc.state then .ok (pyGetS loc.state)
  else if truthyS loc.country then .ok (pyGetS loc.country)
  else .error "Location must have at least one valid attribute."

/-- Model of `models.WeatherData` (pydantic model, optional fields default `None`). -/
structure WeatherData where
  country : String
  state : Option String := none
  city : String
  time_zone : Option String := none
  temp_c : Option ℚ := none
  temp_f : Option ℚ := none
  temp_k : Option ℚ := none
  clouds : ℤ
  wind_speed_kph : ℚ
  wind_degree : Option ℤ := none
  wind_dir : Option String := none
  pressure_mb : Option ℚ := none
  pressure_in : Option ℚ := none
  precip_mm : Option ℚ := none
  precip_in : Option ℚ := none
  humidity : Option ℤ := none
  feelslike_c : Option ℚ := none
  feelslike_f : Option ℚ := none
  vis_km : Option ℚ := none
  vis_miles : Option ℚ := none
  uv : Option ℚ := none
  gust_kph : Option ℚ := none
  gust_mph : Option ℚ := none
  last_updated : Option String := none
deriving DecidableEq, Repr

/-- Celsius to Kelvin, as in `_apply_units.c_to_k`. -/
def c_to_k (c : ℚ) : ℚ := c + 273.15

/-- Fahrenheit to Kelvin, as in `_apply_units.f_to_k`. -/
def f_to_k (f : ℚ) : ℚ := (f - 32) * 5 / 9 + 273.15

/-- Model of `WeatherService._apply_units` (services/weather_service.py). -/
def apply_units (wd : WeatherData) (units : String) : WeatherData :=
  let base_c := wd.temp_c
  let base_f := wd.temp_f
  let base_k : Option ℚ :=
    if (units = "K" ∨ units = "ALL") ∧ (base_c.isSome ∨ base_f.isSome) then
      match base_c, base_f with
      | some c, _ => some (c_to_k c)
      | none, some f => some (f_to_k f)
      | none, none => none
    else none
  if units = "C" then
    { wd with temp_c := base_c, temp_f := none, temp_k := none }
  else if units = "F" then
    { wd with temp_c := none, temp_f := base_f, temp_k := none }
  else if units = "K" then
    { wd with temp_c := none, temp_f := none, temp_k := base_k }
  else if units = "BOTH" then
    { wd with temp_c := base_c, temp_f := base_f, temp_k := none }
  else if units = "ALL" then
    { wd with temp_c := base_c, temp_f := base_f, temp_k := base_k }
  else wd

/-! Cache (cache/memory_cache.py). The dict is modelled as an association
list looked up from the left; `set` keeps at most one entry per key, which
matches dict semantics for every lookup. Time is an explicit ℚ parameter. -/

/-- State of a `MemoryCache`: key, value and absolute expiry timestamp. -/
abbrev Cache (α : Type) : Type := List (String × α × ℚ)

/-- Dict lookup `self.cache.get(key)`. -/
def cacheLookup {α : Type} (c : Cache α) (k : String) : Option (α × ℚ) :=
  (c.find? (fun e => e.1 == k)).map (fun e => e.2)

/-- Model of `MemoryCache.get`: returns the value unless the entry is absent
or expired (`expires_at < now`), deleting an expired entry on read. -/
def cacheGet {α : Type} (c : Cache α) (k : String) (now : ℚ) : Option α × Cache α :=
  match cacheLookup c k with
  | none => (none, c)
  | some (v, ex) =>
    if ex < now then (none, c.filter (fun e => e.1 != k)) else (some v, c)

/-- Model of `MemoryCache.set`: unconditional overwrite, `expires_at = now + ttl`. -/
def cacheSet {α : Type} (c : Cache α) (k : String) (v : α) (ttl now : ℚ) : Cache α :=
  (k, v, now + ttl) :: c.filter (fun e => e.1 != k)

/-- Effective unit mode `(units or self.default_units).upper()`. The service
stores `default_units` uppercased at construction and uppercases again at use;
`toUpper` is idempotent, so a single application of it here is extensionally
the same. Python `or` falls through on a falsy (empty) string. -/
def effectiveUnits (units : Option String) (default_units : String) : String :=
  (match units with
   | some u => if u != "" then u else default_units
   | none => default_units).toUpper

/-- Outcome of `WeatherService.get_current_weather`, instrumented with the
resulting cache state and the number of provider-client calls made. -/
structure FetchResult where
  data : WeatherData
  cache : Option (Cache WeatherData)
  clientCalls : ℕ
deriving DecidableEq, Repr

/-- Model of `WeatherService.get_current_weather`. The provider client is an
oracle `fetchOne : String → WeatherData` (a successful fetch; failures
propagate in the source and are outside this claim's scope). -/
def WeatherService.get_current_weather (fetchOne : String → WeatherData)
    (cache : Option (Cache WeatherData)) (cache_ttl : ℚ) (default_units : String)
    (now : ℚ) (loc : Location) (units : Option String) : Except String FetchResult :=
  let u := effectiveUnits units default_units
  match loc.to_query with
  | .error e => .error e
  | .ok q =>
    let key := q ++ "|units=" ++ u
    match cache with
    | some c =>
      match cacheGet c key now with
      | (some v, c1) => .ok { data := v, cache := some c1, clientCalls := 0 }
      | (none, c1) =>
        let p := apply_units (fetchOne q) u
        .ok { data := p, cache := some (cacheSet c1 key p cache_ttl now),
              clientCalls := 1 }
    | none =>
      .ok { data := apply_units (fetchOne q) u, cache := none, clientCalls := 1 }

/-- Outcome of `WeatherService.get_current_weather_bulk`, instrumented with
call counters: the source never touches the cache on this path, which the
counters make observable. -/
structure BulkResult where
  data : List WeatherData
  clientCalls : ℕ
  cacheReads : ℕ
  cacheWrites : ℕ
deriving DecidableEq, Repr

/-- The `for wd in raw_results: if wd: processed.append(...)` loop of
`WeatherService.get_current_weather_bulk` (a `WeatherData` is always truthy,
so the test is exactly non-`None`). -/
def processLoop (raw : List (Option WeatherData)) (u : String) : List WeatherData :=
  raw.foldl (fun acc o =>
    match o with
    | some wd => acc ++ [apply_units wd u]
    | none => acc) []

/-- Model of `WeatherService.get_current_weather_bulk`, with the client's bulk
fetch as an oracle returning per-index optional raw observations. -/
def WeatherService.get_current_weather_bulk
    (fetchBulk : List Location → List (Option WeatherData))
    (default_units : String) (locations : List Location)
    (units : Option String) : BulkResult :=
  if locations.isEmpty then
    { data := [], clientCalls := 0, cacheReads := 0, cacheWrites := 0 }
  else
    { data := processLoop (fetchBulk locations) (effectiveUnits units default_units),
      clientCalls := 1, cacheReads := 0, cacheWrites := 0 }

/-! Provider-payload parsing (api/weather_client.py). The single and bulk
paths extract fields with identical logic, modelled once by
`parseObservation`. Pydantic validation of the resulting field values is
modelled by the `v...` functions: numbers pass, numeric strings are coerced,
anything else fails; `None`/missing is accepted only for optional fields. -/

/-- Numeric value of a list of decimal digit characters. -/
def digitsVal (cs : List Char) : ℕ :=
  cs.foldl (fun a c => a * 10 + (c.toNat - 48)) 0

/-- Model of Python `float(s)` on strings as used by pydantic's lax numeric
coercion: optional sign, digits with at most one decimal point. Returns
`none` when the string does not parse (for example the empty string). -/
def parseDecimal (s : String) : Option ℚ :=
  match ((s.toList.dropWhile (fun c => c.isWhitespace)).reverse.dropWhile (fun c => c.isWhitespace)).reverse with
  | [] => none
  | c :: rest =>
    let sgn : ℚ := if c = '-' then -1 else 1
    let body : List Char := if c = '-' ∨ c = '+' then rest else c :: rest
    match body.splitOn '.' with
    | [a] =>
      if a ≠ [] ∧ a.all Char.isDigit then some (sgn * digitsVal a) else none
    | [a, b] =>
      if (a ≠ [] ∨ b ≠ []) ∧ a.all Char.isDigit ∧ b.all Char.isDigit then
        some (sgn * ((digitsVal a : ℚ) + (digitsVal b : ℚ) / (10 ^ b.length : ℚ)))
      else none
    | _ => none

/-- Dict lookup `block.get(key)` on a JSON object (missing key gives `none`). -/
def jget (b : List (String × JVal)) (k : String) : Option JVal :=
  (b.find? (fun e => e.1 == k)).map (fun e => e.2)

/-- Model of the local `get_numeric` helper:
`value if value is not None and value != "" else None` — JSON null and the
blank string are coerced to absent, everything else passes. -/
def get_numeric (b : List (String × JVal)) (k : String) : Option JVal :=
  match jget b k with
  | none => none
  | some .null => none
  | some (.str "") => none
  | some v => some v

/-- Pydantic validation of an `Optional[float]` field value. -/
def vOptFloat (o : Option JVal) : Except String (Option ℚ) :=
  match o with
  | none => .ok none
  | some .null => .ok none
  | some (.num q) => .ok (some q)
  | some (.str s) =>
    match parseDecimal s with
    | some q => .ok (some q)
    | none => .error "validation error: value is not a valid float"

/-- Pydantic validation of an `Optional[int]` field value. -/
def vOptInt (o : Option JVal) : Except String (Option ℤ) :=
  match o with
  | none => .ok none
  | some .null => .ok none
  | some (.num q) =>
    if q.den = 1 then .ok (some q.num)
    else .error "validation error: value is not a valid int"
  | some (.str s) =>
    match parseDecimal s with
    | some q =>
      if q.den = 1 then .ok (some q.num)
      else .error "validation error: value is not a valid int"
    | none => .error "validation error: value is not a valid int"

/-- Pydantic validation of a required `float` field value. -/
def vFloatReq (v : JVal) : Except String ℚ :=
  match v with
  | .num q => .ok q
  | .str s =>
    match parseDecimal s with
    | some q => .ok q
    | none => .error "validation error: value is not a valid float"
  | .null => .error "validation error: value is not a valid float"

/-- Pydantic validation of a required `int` field value. -/
def vIntReq (v : JVal) : Except String ℤ :=
  match v with
  | .num q =>
    if q.den = 1 then .ok q.num
    else .error "validation error: value is not a valid int"
  | .str s =>
    match parseDecimal s with
    | some q =>
      if q.den = 1 then .ok q.num
      else .error "validation error: value is not a valid int"
    | none => .error "validation error: value is not a valid int"
  | .null => .error "validation error: value is not a valid int"

/-- Required string field read with `block[key]` (missing key is a KeyError)
and validated as `str`. -/
def vStrReq (o : Option JVal) : Except String String :=
  match o with
  | some (.str s) => .ok s
  | some _ => .error "validation error: value is not a valid string"
  | none => .error "KeyError"

/-- The `block.get(key) or None` idiom: a falsy value (missing, null, blank
string, zero) becomes absent. -/
def orNone (b : List (String × JVal)) (k : String) : Option JVal :=
  match jget b k with
  | some (.str s) => if s == "" then none else some (.str s)
  | some (.num q) => if q == 0 then none else some (.num q)
  | some .null => none
  | none => none

/-- Pydantic validation of an `Optional[str]` field value. -/
def vOptStr (o : Option JVal) : Except String (Option String) :=
  match o with
  | none => .ok none
  | some .null => .ok none
  | some (.str s) => .ok (some s)
  | some (.num _) => .error "validation error: value is not a valid string"

/-- Model of the payload-to-`WeatherData` extraction shared verbatim by
`WeatherClient.get_current_weather` and the per-item body of
`WeatherClient.get_current_weather_bulk`: direct `get` for `temp_c`,
`temp_f`, `cloud` (default 0), `wind_kph` (default 0.0), `wind_dir` and
`last_updated`; the `get_numeric` blank-coercion for the remaining optional
numeric fields; `or None` for `region` and `tz_id`. -/
def parseObservation (locB curB : List (String × JVal)) : Except String WeatherData := do
  let country ← vStrReq (jget locB "country")
  let state ← vOptStr (orNone locB "region")
  let city ← vStrReq (jget locB "name")
  let time_zone ← vOptStr (orNone locB "tz_id")
  let temp_c ← vOptFloat (jget curB "temp_c")
  let temp_f ← vOptFloat (jget curB "temp_f")
  let clouds ← vIntReq ((jget curB "cloud").getD (.num 0))
  let wind_speed_kph ← vFloatReq ((jget curB "wind_kph").getD (.num 0))
  let wind_degree ← vOptInt (get_numeric curB "wind_degree")
  let wind_dir ← vOptStr (jget curB "wind_dir")
  let pressure_mb ← vOptFloat (get_numeric curB "pressure_mb")
  let pressure_in ← vOptFloat (get_numeric curB "pressure_in")
  let precip_mm ← vOptFloat (get_numeric curB "precip_mm")
  let precip_in ← vOptFloat (get_numeric curB "precip_in")
  let humidity ← vOptInt (get_numeric curB "humidity")
  let feelslike_c ← vOptFloat (get_numeric curB "feelslike_c")
  let feelslike_f ← vOptFloat (get_numeric curB "feelslike_f")
  let vis_km ← vOptFloat (get_numeric curB "vis_km")
  let vis_miles ← vOptFloat (get_numeric curB "vis_miles")
  let uv ← vOptFloat (get_numeric curB "uv")
  let gust_kph ← vOptFloat (get_numeric curB "gust_kph")
  let gust_mph ← vOptFloat (get_numeric curB "gust_mph")
  let last_updated ← vOptStr (jget curB "last_updated")
  return { country := country, state := state, city := city,
           time_zone := time_zone, temp_c := temp_c, temp_f := temp_f,
           temp_k := none, clouds := clouds, wind_speed_kph := wind_speed_kph,
           wind_degree := wind_degree, wind_dir := wind_dir,
           pressure_mb := pressure_mb, pressure_in := pressure_in,
           precip_mm := precip_mm, precip_in := precip_in,
           humidity := humidity, feelslike_c := feelslike_c,
           feelslike_f := feelslike_f, vis_km := vis_km,
           vis_miles := vis_miles, uv := uv, gust_kph := gust_kph,
           gust_mph := gust_mph, last_updated := last_updated }

/-- One item of a provider bulk response: the `query` block's `custom_id`
plus its `location` and `current` sub-blocks. -/
structure BulkItem where
  custom_id : Option String := none
  location : List (String × JVal) := []
  current : List (String × JVal) := []
deriving DecidableEq, Repr

/-- Lookup in the `id_to_index` dict, whose keys are `str(idx)` for each
input position `idx`. -/
def idToIndex (n : ℕ) (cid : String) : Option ℕ :=
  (List.range n).find? (fun i => toString i == cid)

/-- The response-processing loop of `WeatherClient.get_current_weather_bulk`:
items with a missing or unrecognized `custom_id` are skipped, recognized ones
are parsed and written at the position the id names (a parse failure
propagates, as the source's exceptions do). -/
def processItems (n : ℕ) (items : List BulkItem)
    (results : List (Option WeatherData)) : Except String (List (Option WeatherData)) :=
  match items with
  | [] => .ok results
  | it :: rest =>
    match it.custom_id with
    | none => processItems n rest results
    | some cid =>
      match idToIndex n cid with
      | none => processItems n rest results
      | some idx =>
        match parseObservation it.location it.current with
        | .error e => .error e
        | .ok wd => processItems n rest (results.set idx (some wd))

/-- Model of `WeatherClient.get_current_weather_bulk` on a successful HTTP
exchange: the provider's response items are a parameter, the returned ℕ
counts HTTP requests made. Each outbound location is tagged with the
positional id `str(idx)` (a `to_query` failure propagates before any call);
results start as `[None] * len(locations)` and are filled by correlation id. -/
def WeatherClient.get_current_weather_bulk (locations : List Location)
    (respItems : List BulkItem) : Except String (List (Option WeatherData) × ℕ) :=
  if locations.isEmpty then .ok ([], 0)
  else
    match locations.mapM Location.to_query with
    | .error e => .error e
    | .ok _ =>
      match processItems locations.length respItems
          (List.replicate locations.length none) with
      | .error e => .error e
      | .ok rs => .ok (rs, 1)

/-! Theorems. -/

/-- Destructor for a successful `Except` bind. -/
theorem bindEqOk {ε α β : Type} {x : Except ε α} {f : α → Except ε β} {b : β}
    (h : x >>= f = .ok b) : ∃ a, x = .ok a ∧ f a = .ok b := by
  cases x with
  | error e => simp [Bind.bind, Except.bind] at h
  | ok a => exact ⟨a, rfl, by simpa [Bind.bind, Except.bind] using h⟩

/-- C1: `to_query` resolves by the exact nine-step precedence — (1) latitude
and longitude both set gives `"{lat},{lon}"`, (2) zip code, (3) IP address,
(4) `"{city},{country}"`, (5) `"{city},{state}"`, (6) city alone, (7) state
alone, (8) country alone — first match wins, and with no field set it fails
with the invalid-location error. A field is "set" in the sense the source
tests it: Python truthiness. -/
theorem to_query_nine_step_precedence (loc : Location) :
    ((truthyF loc.latitude && truthyF loc.longitude) = true →
      loc.to_query = .ok (pyShowF loc.latitude ++ "," ++ pyShowF loc.longitude)) ∧
    ((truthyF loc.latitude && truthyF loc.longitude) = false →
      truthyS loc.zip_code = true →
      loc.to_query = .ok (pyGetS loc.zip_code)) ∧
    ((truthyF loc.latitude && truthyF loc.longitude) = false →
      truthyS loc.zip_code = false → truthyS loc.ip_address = true →
      loc.to_query = .ok (pyGetS loc.ip_address)) ∧
    ((truthyF loc.latitude && truthyF loc.longitude) = false →
      truthyS loc.zip_code = false → truthyS loc.ip_address = false →
      (truthyS loc.city && truthyS loc.country) = true →
      loc.to_query = .ok (pyGetS loc.city ++ "," ++ pyGetS loc.country)) ∧
    ((truthyF loc.latitude && truthyF loc.longitude) = false →
      truthyS loc.zip_code = false → truthyS loc.ip_address = false →
      (truthyS loc.city && truthyS loc.country) = false →
      (truthyS loc.city && truthyS loc.state) = true →
      loc.to_query = .ok (pyGetS loc.city ++ "," ++ pyGetS loc.state)) ∧
    ((truthyF loc.latitude && truthyF loc.longitude) = false →
      truthyS loc.zip_code = false → truthyS loc.ip_address = false →
      (truthyS loc.city && truthyS loc.country) = false →
      (truthyS loc.city && truthyS loc.state) = false →
      truthyS loc.city = true →
      loc.to_query = .ok (pyGetS loc.city)) ∧
    ((truthyF loc.latitude && truthyF loc.longitude) = false →
      truthyS loc.zip_code = false → truthyS loc.ip_address = false →
      (truthyS loc.city && truthyS loc.country) = false →
      (truthyS loc.city && truthyS loc.state) = false →
      truthyS loc.city = false → truthyS loc.state = true →
      loc.to_query = .ok (pyGetS loc.state)) ∧
    ((truthyF loc.latitude && truthyF loc.longitude) = false →
      truthyS loc.zip_code = false → truthyS loc.ip_address = false →
      (truthyS loc.city && truthyS loc.country) = false →
      (truthyS loc.city && truthyS loc.state) = false →
      truthyS loc.city = false → truthyS loc.state = false →
      truthyS loc.country = true →
      loc.to_query = .ok (pyGetS loc.country)) ∧
    ((truthyF loc.latitude && truthyF loc.longitude) = false →
      truthyS loc.zip_code = false → truthyS loc.ip_address = false →
      (truthyS loc.city && truthyS loc.country) = false →
      (truthyS loc.city && truthyS loc.state) = false →
      truthyS loc.city = false → truthyS loc.state = false →
      truthyS loc.country = false →
      loc.to_query = .error "Location must have at least one valid attribute.") := by
  refine ⟨?_, ?_, ?_, ?_, ?_, ?_, ?_, ?_, ?_⟩ <;>
    intros <;> simp_all [Location.to_query]

/-- C1 witness: a location with only the city set resolves to the city. -/
theorem to_query_nine_step_precedence_witness :
    Location.to_query { city := some "London" } = .ok "London" :=
  (to_query_nine_step_precedence { city := some "London" }).2.2.2.2.2.1
    rfl rfl rfl rfl rfl rfl

/-- C10: presence is Python truthiness, so `latitude = 0.0` (or a blank
string field) is treated as unset and falls through — with latitude `0.0`,
longitude non-zero and a truthy city, and the remaining fields falsy,
`to_query` returns the city, never the `"{lat},{lon}"` form. -/
theorem to_query_truthiness_zero_latitude (loc : Location) (lo : ℚ) (c : String)
    (hlat : loc.latitude = some 0) (hlon : loc.longitude = some lo) (hlo : lo ≠ 0)
    (hcity : loc.city = some c) (hc : c ≠ "")
    (hzip : truthyS loc.zip_code = false) (hip : truthyS loc.ip_address = false)
    (hcountry : truthyS loc.country = false) (hstate : truthyS loc.state = false) :
    loc.to_query = .ok c := by
  have h1 : truthyF loc.latitude = false := by simp [truthyF, hlat]
  have h2 : truthyS loc.city = true := by simp [truthyS, hcity, hc]
  simp [Location.to_query, h1, h2, hzip, hip, hcountry, hstate, hcity, pyGetS]
  simp [truthyS, hc]

/-- C10 witness: latitude `0.0` with non-zero longitude and a blank zip code
falls through to the city. -/
theorem to_query_truthiness_zero_latitude_witness :
    Location.to_query { latitude := some 0, longitude := some 5, city := some "X", zip_code := some "" } = .ok "X" :=
  to_query_truthiness_zero_latitude _ 5 "X" rfl rfl (by norm_num) rfl
    (by decide) rfl rfl rfl rfl

/-- Temperature set of a unit mode contains Celsius (spec §4.4). -/
def modeHasC (m : String) : Bool := m == "C" || m == "BOTH" || m == "ALL"

/-- Temperature set of a unit mode contains Fahrenheit (spec §4.4). -/
def modeHasF (m : String) : Bool := m == "F" || m == "BOTH" || m == "ALL"

/-- Temperature set of a unit mode contains Kelvin (spec §4.4). -/
def modeHasK (m : String) : Bool := m == "K" || m == "ALL"

/-- The five recognized unit modes (spec §3). -/
def recognizedMode (m : String) : Bool :=
  m == "C" || m == "F" || m == "K" || m == "BOTH" || m == "ALL"

/-- Kelvin derivable from a raw observation: from Celsius when present, from
Fahrenheit only when Celsius is absent, absent when both are absent. -/
def derivedKelvin (wd : WeatherData) : Option ℚ :=
  match wd.temp_c, wd.temp_f with
  | some c, _ => some (c_to_k c)
  | none, some f => some (f_to_k f)
  | none, none => none

/-- A sample raw observation (the repository's own mock data). -/
def wSample : WeatherData :=
  { country := "United Kingdom", state := some "City of London, Greater London", city := "London", time_zone := some "Europe/London", temp_c := some 15.5, temp_f := some 59.9, clouds := 75, wind_speed_kph := 12.5 }

/-- C2: for a recognized mode, `apply_units` keeps exactly the mode's
temperature set (C→{Celsius}; F→{Fahrenheit}; K→{Kelvin}; BOTH→{Celsius,
Fahrenheit}; ALL→{Celsius, Fahrenheit, Kelvin}), carrying the raw Celsius /
Fahrenheit and the derived Kelvin there, clears every temperature field
outside the set to absent even when the raw observation had it, and passes
every non-temperature field through unchanged; an unrecognized mode returns
the raw observation unchanged. -/
theorem apply_units_mode_sets (wd : WeatherData) (m : String) :
    (recognizedMode m = true →
      apply_units wd m =
        { wd with
          temp_c := if modeHasC m then wd.temp_c else none,
          temp_f := if modeHasF m then wd.temp_f else none,
          temp_k := if modeHasK m then derivedKelvin wd else none }) ∧
    (recognizedMode m = false → apply_units wd m = wd) := by
  constructor
  · intro h
    simp only [recognizedMode, Bool.or_eq_true, beq_iff_eq] at h
    rcases h with ((((h | h) | h) | h) | h) <;> subst h <;>
      cases hc : wd.temp_c <;> cases hf : wd.temp_f <;>
        simp [apply_units, modeHasC, modeHasF, modeHasK, derivedKelvin, hc, hf]
  · intro h
    simp only [recognizedMode, Bool.or_eq_false_iff, beq_eq_false_iff_ne,
      ne_eq] at h
    obtain ⟨⟨⟨⟨h1, h2⟩, h3⟩, h4⟩, h5⟩ := h
    simp [apply_units, h1, h2, h3, h4, h5]

/-- C2 witness: mode `ALL` on the sample observation keeps Celsius and
Fahrenheit, derives Kelvin, and leaves the rest unchanged. -/
theorem apply_units_mode_sets_witness :
    apply_units wSample "ALL" =
      { wSample with
        temp_c := if modeHasC "ALL" then wSample.temp_c else none,
        temp_f := if modeHasF "ALL" then wSample.temp_f else none,
        temp_k := if modeHasK "ALL" then derivedKelvin wSample else none } :=
  (apply_units_mode_sets wSample "ALL").1 rfl

/-- C3: the Kelvin of `apply_units` is the derived Kelvin exactly for modes
`K` and `ALL`; the derived Kelvin equals `C + 273.15` whenever Celsius is
present, equals `(F − 32) × 5/9 + 273.15` only when Celsius is absent and
Fahrenheit is present, and is absent when both are absent; every other
recognized mode leaves Kelvin absent. -/
theorem apply_units_kelvin_derivation (wd : WeatherData) :
    ((apply_units wd "K").temp_k = derivedKelvin wd) ∧
    ((apply_units wd "ALL").temp_k = derivedKelvin wd) ∧
    (∀ c : ℚ, wd.temp_c = some c → derivedKelvin wd = some (c + 273.15)) ∧
    (∀ f : ℚ, wd.temp_c = none → wd.temp_f = some f →
      derivedKelvin wd = some ((f - 32) * 5 / 9 + 273.15)) ∧
    (wd.temp_c = none → wd.temp_f = none → derivedKelvin wd = none) ∧
    (∀ m, recognizedMode m = true → m ≠ "K" → m ≠ "ALL" →
      (apply_units wd m).temp_k = none) := by
  refine ⟨?_, ?_, ?_, ?_, ?_, ?_⟩
  · cases hc : wd.temp_c <;> cases hf : wd.temp_f <;>
      simp [apply_units, derivedKelvin, hc, hf]
  · cases hc : wd.temp_c <;> cases hf : wd.temp_f <;>
      simp [apply_units, derivedKelvin, hc, hf]
  · intro c hc
    cases hf : wd.temp_f <;> simp [derivedKelvin, c_to_k, hc, hf]
  · intro f hc hf
    simp [derivedKelvin, f_to_k, hc, hf]
  · intro hc hf
    simp [derivedKelvin, hc, hf]
  · intro m hm hK hALL
    simp only [recognizedMode, Bool.or_eq_true, beq_iff_eq] at hm
    rcases hm with ((((h | h) | h) | h) | h) <;> first
      | exact absurd h hK
      | exact absurd h hALL
      | (subst h; simp [apply_units])

/-- C3 witness: with mode `ALL` and only Fahrenheit present (59.9), Kelvin is
derived from Fahrenheit. -/
theorem apply_units_kelvin_derivation_witness :
    (apply_units { wSample with temp_c := none } "ALL").temp_k =
      some ((59.9 - 32) * 5 / 9 + 273.15) := by
  have h := apply_units_kelvin_derivation { wSample with temp_c := none }
  rw [h.2.1, h.2.2.2.1 59.9 rfl rfl]

/-- C8 counterexample: re-applying `apply_units` with mode `"K"` is not
idempotent — the first application clears Celsius and Fahrenheit, so the
second can no longer derive Kelvin and clears it. -/
theorem apply_units_not_idempotent_K :
    apply_units (apply_units wSample "K") "K" ≠ apply_units wSample "K" := by
  decide

/-- C8 amended: `apply_units` is idempotent under re-application with the
same mode for every mode except `"K"`; for `"K"` it is idempotent when the
raw observation carries neither Celsius nor Fahrenheit. -/
theorem apply_units_idempotent_except_K (wd : WeatherData) (m : String) :
    (m ≠ "K" → apply_units (apply_units wd m) m = apply_units wd m) ∧
    (wd.temp_c = none → wd.temp_f = none →
      apply_units (apply_units wd m) m = apply_units wd m) := by
  constructor
  · intro hm
    by_cases h1 : m = "C"
    · subst h1; cases hc : wd.temp_c <;> simp [apply_units, hc]
    · by_cases h2 : m = "F"
      · subst h2; cases hf : wd.temp_f <;> simp [apply_units, hf]
      · by_cases h3 : m = "BOTH"
        · subst h3
          cases hc : wd.temp_c <;> cases hf : wd.temp_f <;>
            simp [apply_units, hc, hf]
        · by_cases h4 : m = "ALL"
          · subst h4
            cases hc : wd.temp_c <;> cases hf : wd.temp_f <;>
              simp [apply_units, hc, hf]
          · simp [apply_units, h1, h2, h3, h4, hm]
  · intro hc hf
    by_cases h1 : m = "C"
    · subst h1; simp [apply_units, hc, hf]
    · by_cases h2 : m = "F"
      · subst h2; simp [apply_units, hc, hf]
      · by_cases h3 : m = "BOTH"
        · subst h3; simp [apply_units, hc, hf]
        · by_cases h4 : m = "ALL"
          · subst h4; simp [apply_units, hc, hf]
          · by_cases h5 : m = "K"
            · subst h5; simp [apply_units, hc, hf]
            · simp [apply_units, h1, h2, h3, h4, h5]

/-- C8 witness: idempotence at mode `"C"` on the sample observation. -/
theorem apply_units_idempotent_except_K_witness :
    apply_units (apply_units wSample "C") "C" = apply_units wSample "C" :=
  (apply_units_idempotent_except_K wSample "C").1 (by decide)

/-- Deleting a key removes it from lookups. -/
theorem cacheLookup_filter_ne {α : Type} (c : Cache α) (k : String) :
    cacheLookup (c.filter (fun e => e.1 != k)) k = none := by
  induction c with
  | nil => rfl
  | cons e t ih =>
    by_cases h : e.1 == k
    · simpa [cacheLookup, List.filter, bne, h] using ih
    · simpa [cacheLookup, List.filter, List.find?, bne, h] using ih

/-- A freshly set entry is the one every lookup sees. -/
theorem cacheLookup_cacheSet {α : Type} (c : Cache α) (k : String) (v : α)
    (ttl now : ℚ) : cacheLookup (cacheSet c k v ttl now) k = some (v, now + ttl) := by
  simp [cacheLookup, cacheSet, List.find?]

/-- Reading a freshly set entry before or at its expiry returns the value and
leaves the cache unchanged; after the expiry it returns none and evicts. -/
theorem cacheGet_cacheSet {α : Type} (c : Cache α) (k : String) (v : α)
    (ttl now t : ℚ) :
    (t ≤ now + ttl →
      cacheGet (cacheSet c k v ttl now) k t = (some v, cacheSet c k v ttl now)) ∧
    (now + ttl < t →
      (cacheGet (cacheSet c k v ttl now) k t).1 = none ∧
      cacheLookup (cacheGet (cacheSet c k v ttl now) k t).2 k = none) := by
  constructor
  · intro ht
    simp [cacheGet, cacheLookup_cacheSet, not_lt.mpr ht]
  · intro ht
    constructor
    · simp [cacheGet, cacheLookup_cacheSet, ht]
    · simp only [cacheGet, cacheLookup_cacheSet, if_pos ht]
      exact cacheLookup_filter_ne _ k

/-- C4 counterexample: at the instant the current time equals `expires_at`
(`set` at time 0 with ttl 60, `get` at time 60) the code still returns the
value, where the claim requires absent; expiry in `MemoryCache.get` is the
strict test `expires_at < now`. -/
theorem cacheGet_at_expiry_returns_value :
    (cacheGet (cacheSet ([] : Cache ℕ) "k" 7 60 0) "k" 60).1 = some 7 := by
  norm_num [cacheGet, cacheSet, cacheLookup, List.find?]

/-- C4 amended: after `set(k, v, ttl)` at time `now` — an unconditional
overwrite with `expires_at = now + ttl` — `get(k)` returns `v` while the
current time is less than or equal to `expires_at` (leaving the cache
unchanged), and returns absent, removing the entry, once the current time is
strictly greater than `expires_at`. -/
theorem cacheSet_cacheGet_roundtrip {α : Type} (c : Cache α) (k : String)
    (v : α) (ttl now t : ℚ) :
    (t ≤ now + ttl →
      cacheGet (cacheSet c k v ttl now) k t = (some v, cacheSet c k v ttl now)) ∧
    (now + ttl < t →
      (cacheGet (cacheSet c k v ttl now) k t).1 = none ∧
      cacheLookup (cacheGet (cacheSet c k v ttl now) k t).2 k = none) :=
  cacheGet_cacheSet c k v ttl now t

/-- C4 witness: a round-trip through the cache at concrete times — a hit
strictly inside the TTL and an eviction after it. -/
theorem cacheSet_cacheGet_roundtrip_witness :
    cacheGet (cacheSet ([] : Cache ℕ) "k" 7 60 0) "k" 59 =
      (some 7, cacheSet ([] : Cache ℕ) "k" 7 60 0) ∧
    (cacheGet (cacheSet ([] : Cache ℕ) "k" 7 60 0) "k" 61).1 = none :=
  ⟨(cacheSet_cacheGet_roundtrip ([] : Cache ℕ) "k" 7 60 0 59).1 (by norm_num),
   ((cacheSet_cacheGet_roundtrip ([] : Cache ℕ) "k" 7 60 0 61).2 (by norm_num)).1⟩

/-- C5: with a cache present, `get_current_weather` uses the key
`"{query}|units={mode}"` (mode = given units or the configured default,
uppercased): a hit returns the cached value with zero client calls; a miss
calls the client exactly once, normalizes, stores under that key with the
configured TTL and returns the result; and a second call for the same
location and units within the TTL makes zero further client calls and
returns an equal result. -/
theorem get_current_weather_cache_behavior (fetchOne : String → WeatherData)
    (c : Cache WeatherData) (ttl : ℚ) (du : String) (now : ℚ) (loc : Location)
    (units : Option String) (q : String) (hq : loc.to_query = .ok q) :
    (∀ v c1, cacheGet c (q ++ "|units=" ++ effectiveUnits units du) now = (some v, c1) →
      WeatherService.get_current_weather fetchOne (some c) ttl du now loc units =
        .ok { data := v, cache := some c1, clientCalls := 0 }) ∧
    (∀ c1, cacheGet c (q ++ "|units=" ++ effectiveUnits units du) now = (none, c1) →
      WeatherService.get_current_weather fetchOne (some c) ttl du now loc units =
        .ok { data := apply_units (fetchOne q) (effectiveUnits units du),
              cache := some (cacheSet c1 (q ++ "|units=" ++ effectiveUnits units du)
                (apply_units (fetchOne q) (effectiveUnits units du)) ttl now),
              clientCalls := 1 }) ∧
    (∀ c1 t, cacheGet c (q ++ "|units=" ++ effectiveUnits units du) now = (none, c1) →
      t ≤ now + ttl →
      WeatherService.get_current_weather fetchOne
          (some (cacheSet c1 (q ++ "|units=" ++ effectiveUnits units du)
            (apply_units (fetchOne q) (effectiveUnits units du)) ttl now))
          ttl du t loc units =
        .ok { data := apply_units (fetchOne q) (effectiveUnits units du),
              cache := some (cacheSet c1 (q ++ "|units=" ++ effectiveUnits units du)
                (apply_units (fetchOne q) (effectiveUnits units du)) ttl now),
              clientCalls := 0 }) := by
  refine ⟨?_, ?_, ?_⟩
  · intro v c1 hget
    simp [WeatherService.get_current_weather, hq, hget]
  · intro c1 hget
    simp [WeatherService.get_current_weather, hq, hget]
  · intro c1 t hget ht
    have hfresh := (cacheGet_cacheSet c1
      (q ++ "|units=" ++ effectiveUnits units du)
      (apply_units (fetchOne q) (effectiveUnits units du)) ttl now t).1 ht
    simp [WeatherService.get_current_weather, hq, hfresh]

/-- C5 witness: a concrete miss-then-hit round trip — the first call makes
one client call and populates the cache, the second call within the TTL makes
zero client calls and returns the equal cached result. -/
theorem get_current_weather_cache_behavior_witness :
    WeatherService.get_current_weather (fun _ => wSample)
        (some (cacheSet ([] : Cache WeatherData) ("London" ++ "|units=" ++ effectiveUnits none "C") (apply_units wSample (effectiveUnits none "C")) 900 0))
        900 "C" 60 { city := some "London" } none =
      .ok { data := apply_units wSample (effectiveUnits none "C"),
            cache := some (cacheSet ([] : Cache WeatherData) ("London" ++ "|units=" ++ effectiveUnits none "C") (apply_units wSample (effectiveUnits none "C")) 900 0),
            clientCalls := 0 } :=
  (get_current_weather_cache_behavior (fun _ => wSample) [] 900 "C" 0
      { city := some "London" } none "London" rfl).2.2 [] 60 rfl (by norm_num)

/-- Unfolding of the bulk append loop into a `filterMap`. -/
theorem processLoop_eq_filterMap (raw : List (Option WeatherData)) (u : String) :
    processLoop raw u = raw.filterMap (fun o => o.map (fun wd => apply_units wd u)) := by
  have hgen : ∀ (l : List (Option WeatherData)) (acc : List WeatherData),
      l.foldl (fun acc o =>
        match o with
        | some wd => acc ++ [apply_units wd u]
        | none => acc) acc =
        acc ++ l.filterMap (fun o => o.map (fun wd => apply_units wd u)) := by
    intro l
    induction l with
    | nil => simp
    | cons o t ih =>
      intro acc
      cases o with
      | none => simpa using ih acc
      | some wd => simp [ih]
  simpa using hgen raw []

/-- C6: the bulk service path returns an empty sequence with no client call
on empty input; otherwise it makes one bulk client call, never reads or
writes the cache, normalizes every non-absent element of the client result
in order, and silently drops absent elements, so the output can be shorter
than the client result. -/
theorem get_current_weather_bulk_service (fetchBulk : List Location → List (Option WeatherData))
    (du : String) (locations : List Location) (units : Option String) :
    (locations = [] →
      WeatherService.get_current_weather_bulk fetchBulk du locations units =
        { data := [], clientCalls := 0, cacheReads := 0, cacheWrites := 0 }) ∧
    (locations ≠ [] →
      WeatherService.get_current_weather_bulk fetchBulk du locations units =
        { data := (fetchBulk locations).filterMap
            (fun o => o.map (fun wd => apply_units wd (effectiveUnits units du))),
          clientCalls := 1, cacheReads := 0, cacheWrites := 0 }) ∧
    (WeatherService.get_current_weather_bulk fetchBulk du locations units).data.length ≤
      (fetchBulk locations).length := by
  refine ⟨?_, ?_, ?_⟩
  · intro h
    subst h
    rfl
  · intro h
    simp [WeatherService.get_current_weather_bulk, List.isEmpty_iff, h,
      processLoop_eq_filterMap]
  · by_cases h : locations.isEmpty
    · simp [WeatherService.get_current_weather_bulk, h]
    · simp [WeatherService.get_current_weather_bulk, h, processLoop_eq_filterMap]
      exact List.length_filterMap_le _ _

/-- C6 witness: two locations, the client result has an absent middle entry,
the output is the two normalized observations in client order with one
client call and no cache traffic. -/
theorem get_current_weather_bulk_service_witness :
    WeatherService.get_current_weather_bulk
        (fun _ => [some wSample, none, some wSample]) "C"
        [{ city := some "A" }, { city := some "B" }] none =
      { data := [apply_units wSample (effectiveUnits none "C"), apply_units wSample (effectiveUnits none "C")],
        clientCalls := 1, cacheReads := 0, cacheWrites := 0 } := by
  have h := (get_current_weather_bulk_service
    (fun _ => [some wSample, none, some wSample]) "C"
    [{ city := some "A" }, { city := some "B" }] none).2.1 (by simp)
  simpa using h

/-- A recognized correlation id names a position inside the input. -/
theorem idToIndex_lt (n : ℕ) (cid : String) (j : ℕ)
    (h : idToIndex n cid = some j) : j < n :=
  List.mem_range.mp (List.mem_of_find?_eq_some h)

/-- The response loop never changes the length of the results list. -/
theorem processItems_length (n : ℕ) : ∀ (items : List BulkItem)
    (r rs : List (Option WeatherData)),
    processItems n items r = .ok rs → rs.length = r.length := by
  intro items
  induction items with
  | nil =>
    intro r rs h
    simp only [processItems, Except.ok.injEq] at h
    rw [h]
  | cons it rest ih =>
    intro r rs h
    rw [processItems] at h
    cases hcid : it.custom_id with
    | none =>
      simp only [hcid] at h
      exact ih r rs h
    | some cid =>
      simp only [hcid] at h
      cases hidx : idToIndex n cid with
      | none =>
        simp only [hidx] at h
        exact ih r rs h
      | some idx =>
        simp only [hidx] at h
        cases hp : parseObservation it.location it.current with
        | error e =>
          simp only [hp] at h
          exact Except.noConfusion h
        | ok wd =>
          simp only [hp] at h
          have := ih _ rs h
          simpa [List.length_set] using this

/-- A results position no response item resolves to is left untouched by the
response loop. -/
theorem processItems_untouched (n : ℕ) : ∀ (items : List BulkItem)
    (r rs : List (Option WeatherData)) (j : ℕ),
    processItems n items r = .ok rs →
    (∀ it ∈ items, ∀ cid, it.custom_id = some cid → idToIndex n cid ≠ some j) →
    rs[j]? = r[j]? := by
  intro items
  induction items with
  | nil =>
    intro r rs j h _
    simp only [processItems, Except.ok.injEq] at h
    rw [h]
  | cons it rest ih =>
    intro r rs j h hnone
    rw [processItems] at h
    cases hcid : it.custom_id with
    | none =>
      simp only [hcid] at h
      exact ih r rs j h (fun it2 h2 => hnone it2 (List.mem_cons_of_mem _ h2))
    | some cid =>
      simp only [hcid] at h
      cases hidx : idToIndex n cid with
      | none =>
        simp only [hidx] at h
        exact ih r rs j h (fun it2 h2 => hnone it2 (List.mem_cons_of_mem _ h2))
      | some idx =>
        simp only [hidx] at h
        cases hp : parseObservation it.location it.current with
        | error e =>
          simp only [hp] at h
          exact Except.noConfusion h
        | ok wd =>
          simp only [hp] at h
          have hne : idx ≠ j := by
            intro hd
            exact hnone it (List.mem_cons_self it rest) cid hcid (hd ▸ hidx)
          have := ih _ rs j h
            (fun it2 h2 => hnone it2 (List.mem_cons_of_mem _ h2))
          rw [this, List.getElem?_set_ne hne]

/-- The response loop processes a concatenation left part first. -/
theorem processItems_append (n : ℕ) : ∀ (as bs : List BulkItem)
    (r : List (Option WeatherData)),
    processItems n (as ++ bs) r =
      (processItems n as r).bind (fun r1 => processItems n bs r1) := by
  intro as
  induction as with
  | nil =>
    intro bs r
    simp [processItems, Except.bind]
  | cons it rest ih =>
    intro bs r
    rw [List.cons_append, processItems, processItems]
    cases hcid : it.custom_id with
    | none =>
      simp only [hcid]
      exact ih bs r
    | some cid =>
      simp only [hcid]
      cases hidx : idToIndex n cid with
      | none =>
        simp only [hidx]
        exact ih bs r
      | some idx =>
        simp only [hidx]
        cases hp : parseObservation it.location it.current with
        | error e => simp [hp, Except.bind]
        | ok wd =>
          simp only [hp]
          exact ih bs _

/-- C7: `get_current_weather_bulk` of the client returns, on a successful
exchange, a list of the same length and order as its input — built by tagging
outbound locations with positional correlation ids and re-indexing response
items by that id, not by response order — with `none` at every index no
response item resolves to (missing or unrecognized correlation id); empty
input returns an empty list with zero HTTP calls. -/
theorem client_bulk_reindexing (locations : List Location)
    (resp : List BulkItem) :
    (locations = [] →
      WeatherClient.get_current_weather_bulk locations resp = .ok ([], 0)) ∧
    (∀ rs k, WeatherClient.get_current_weather_bulk locations resp = .ok (rs, k) →
      rs.length = locations.length) ∧
    (∀ rs k j, WeatherClient.get_current_weather_bulk locations resp = .ok (rs, k) →
      j < locations.length →
      (∀ it ∈ resp, ∀ cid, it.custom_id = some cid →
        idToIndex locations.length cid ≠ some j) →
      rs[j]? = some none) ∧
    (∀ rs k j wd cid pre it post,
      WeatherClient.get_current_weather_bulk locations resp = .ok (rs, k) →
      resp = pre ++ it :: post →
      it.custom_id = some cid →
      idToIndex locations.length cid = some j →
      parseObservation it.location it.current = .ok wd →
      (∀ it2 ∈ post, ∀ cid2, it2.custom_id = some cid2 →
        idToIndex locations.length cid2 ≠ some j) →
      rs[j]? = some (some wd)) := by
  refine ⟨?_, ?_, ?_, ?_⟩
  · intro h
    subst h
    rfl
  · intro rs k h
    rw [WeatherClient.get_current_weather_bulk] at h
    cases he : locations.isEmpty with
    | true =>
      rw [he] at h
      simp only [if_true, Except.ok.injEq, Prod.mk.injEq] at h
      rw [← h.1, List.isEmpty_iff.mp he]
      rfl
    | false =>
      rw [he] at h
      simp only [Bool.false_eq_true, if_false] at h
      cases hm : locations.mapM Location.to_query with
      | error e => rw [hm] at h; cases h
      | ok qs =>
        rw [hm] at h
        cases hp : processItems locations.length resp
            (List.replicate locations.length none) with
        | error e => rw [hp] at h; cases h
        | ok rs1 =>
          rw [hp] at h
          simp only [Except.ok.injEq, Prod.mk.injEq] at h
          rw [← h.1]
          have := processItems_length locations.length resp _ rs1 hp
          simpa [List.length_replicate] using this
  · intro rs k j h hj hnone
    rw [WeatherClient.get_current_weather_bulk] at h
    cases he : locations.isEmpty with
    | true =>
      exact absurd hj (by simp [List.isEmpty_iff.mp he])
    | false =>
      rw [he] at h
      simp only [Bool.false_eq_true, if_false] at h
      cases hm : locations.mapM Location.to_query with
      | error e => rw [hm] at h; cases h
      | ok qs =>
        rw [hm] at h
        cases hp : processItems locations.length resp
            (List.replicate locations.length none) with
        | error e => rw [hp] at h; cases h
        | ok rs1 =>
          rw [hp] at h
          simp only [Except.ok.injEq, Prod.mk.injEq] at h
          rw [← h.1]
          rw [processItems_untouched locations.length resp _ rs1 j hp hnone]
          simp [List.getElem?_replicate, hj]
  · intro rs k j wd cid pre it post h hresp hcid hidx hparse hpost
    have hj : j < locations.length := idToIndex_lt _ _ _ hidx
    rw [WeatherClient.get_current_weather_bulk] at h
    cases he : locations.isEmpty with
    | true =>
      exact absurd hj (by simp [List.isEmpty_iff.mp he])
    | false =>
      rw [he] at h
      simp only [Bool.false_eq_true, if_false] at h
      cases hm : locations.mapM Location.to_query with
      | error e => rw [hm] at h; cases h
      | ok qs =>
        rw [hm] at h
        cases hp : processItems locations.length resp
            (List.replicate locations.length none) with
        | error e => rw [hp] at h; cases h
        | ok rs1 =>
          rw [hp] at h
          simp only [Except.ok.injEq, Prod.mk.injEq] at h
          rw [← h.1]
          rw [hresp, processItems_append] at hp
          cases hpre : processItems locations.length pre
              (List.replicate locations.length none) with
          | error e => rw [hpre] at hp; cases hp
          | ok r1 =>
            rw [hpre] at hp
            simp only [Except.bind] at hp
            rw [processItems] at hp
            simp only [hcid, hidx, hparse] at hp
            have hlen : r1.length = locations.length := by
              have := processItems_length locations.length pre _ r1 hpre
              simpa [List.length_replicate] using this
            rw [processItems_untouched locations.length post _ rs1 j hp hpost,
              List.getElem?_set_self]
            rw [hlen]
            exact hj

/-- C7 witness: two locations whose response arrives in reversed order; the
item carrying correlation id `"1"` lands at index 1 even though it is the
first response item. -/
theorem client_bulk_reindexing_witness :
    ([some { country := "X", city := "B", clouds := 0, wind_speed_kph := 0 }, some { country := "X", city := "A", clouds := 0, wind_speed_kph := 0 }] : List (Option WeatherData))[1]? = some (some { country := "X", city := "A", clouds := 0, wind_speed_kph := 0 }) :=
  (client_bulk_reindexing [{ city := some "B" }, { city := some "A" }]
      [{ custom_id := some "1", location := [("country", .str "X"), ("name", .str "A")] }, { custom_id := some "0", location := [("country", .str "X"), ("name", .str "B")] }]).2.2.2
    [some { country := "X", city := "B", clouds := 0, wind_speed_kph := 0 }, some { country := "X", city := "A", clouds := 0, wind_speed_kph := 0 }]
    1 1 { country := "X", city := "A", clouds := 0, wind_speed_kph := 0 } "1"
    [] { custom_id := some "1", location := [("country", .str "X"), ("name", .str "A")] }
    [{ custom_id := some "0", location := [("country", .str "X"), ("name", .str "B")] }]
    (by rfl) rfl rfl (by rfl) (by rfl)
    (by
      intro it2 h2 cid2 hc2
      simp only [List.mem_singleton] at h2
      subst h2
      simp only [Option.some.injEq] at hc2
      subst hc2
      decide)

/-- A blank string fails validation as an optional float. -/
theorem vOptFloat_blank :
    vOptFloat (some (JVal.str "")) = .error "validation error: value is not a valid float" := rfl

/-- A blank string fails validation as a required int. -/
theorem vIntReq_blank :
    vIntReq (JVal.str "") = .error "validation error: value is not a valid int" := rfl

/-- A blank string fails validation as a required float. -/
theorem vFloatReq_blank :
    vFloatReq (JVal.str "") = .error "validation error: value is not a valid float" := rfl

/-- Blank payload values are coerced to absent by `get_numeric`. -/
theorem get_numeric_blank (b : List (String × JVal)) (k : String)
    (h : jget b k = some (JVal.str "")) : get_numeric b k = none := by
  simp [get_numeric, h]

/-- C9 counterexample: a payload whose `temp_c` is the blank string is not
treated as absent — `temp_c` is read without the `get_numeric` coercion, so
the blank string reaches model validation and the whole parse fails, where
the claim requires a successful parse with `temp_c` absent. -/
theorem parse_blank_temp_c_errors :
    parseObservation [("country", JVal.str "United Kingdom"), ("name", JVal.str "London")] [("temp_c", JVal.str ""), ("cloud", JVal.num 75), ("wind_kph", JVal.num 12)] =
      .error "validation error: value is not a valid float" ∧
    jget [("temp_c", JVal.str ""), ("cloud", JVal.num 75), ("wind_kph", JVal.num 12)] "temp_c" = some (JVal.str "") :=
  ⟨rfl, rfl⟩

/-- C9 amended: the blank-means-absent coercion is applied uniformly to
exactly the optional numeric fields extracted through `get_numeric`
(wind_degree, pressure_mb, pressure_in, precip_mm, precip_in, humidity,
feelslike_c, feelslike_f, vis_km, vis_miles, uv, gust_kph, gust_mph) — a
blank value there parses to absent — but not to `temp_c`, `temp_f`, `cloud`
or `wind_kph`, which are read directly: a blank value there makes the parse
fail, so no successful parse carries one. -/
theorem parse_blank_uniform (locB curB : List (String × JVal)) (wd : WeatherData)
    (h : parseObservation locB curB = .ok wd) :
    (jget curB "temp_c" = some (JVal.str "") → False) ∧
    (jget curB "temp_f" = some (JVal.str "") → False) ∧
    (jget curB "cloud" = some (JVal.str "") → False) ∧
    (jget curB "wind_kph" = some (JVal.str "") → False) ∧
    (jget curB "wind_degree" = some (JVal.str "") → wd.wind_degree = none) ∧
    (jget curB "pressure_mb" = some (JVal.str "") → wd.pressure_mb = none) ∧
    (jget curB "pressure_in" = some (JVal.str "") → wd.pressure_in = none) ∧
    (jget curB "precip_mm" = some (JVal.str "") → wd.precip_mm = none) ∧
    (jget curB "precip_in" = some (JVal.str "") → wd.precip_in = none) ∧
    (jget curB "humidity" = some (JVal.str "") → wd.humidity = none) ∧
    (jget curB "feelslike_c" = some (JVal.str "") → wd.feelslike_c = none) ∧
    (jget curB "feelslike_f" = some (JVal.str "") → wd.feelslike_f = none) ∧
    (jget curB "vis_km" = some (JVal.str "") → wd.vis_km = none) ∧
    (jget curB "vis_miles" = some (JVal.str "") → wd.vis_miles = none) ∧
    (jget curB "uv" = some (JVal.str "") → wd.uv = none) ∧
    (jget curB "gust_kph" = some (JVal.str "") → wd.gust_kph = none) ∧
    (jget curB "gust_mph" = some (JVal.str "") → wd.gust_mph = none) := by
  rw [parseObservation] at h
  obtain ⟨country, hco, h⟩ := bindEqOk h
  obtain ⟨st, hst, h⟩ := bindEqOk h
  obtain ⟨city, hci, h⟩ := bindEqOk h
  obtain ⟨tz, htz, h⟩ := bindEqOk h
  obtain ⟨tc, htc, h⟩ := bindEqOk h
  obtain ⟨tf, htf, h⟩ := bindEqOk h
  obtain ⟨cl, hcl, h⟩ := bindEqOk h
  obtain ⟨wk, hwk, h⟩ := bindEqOk h
  obtain ⟨wdg, hwdg, h⟩ := bindEqOk h
  obtain ⟨wdr, hwdr, h⟩ := bindEqOk h
  obtain ⟨pmb, hpmb, h⟩ := bindEqOk h
  obtain ⟨pin, hpin, h⟩ := bindEqOk h
  obtain ⟨prm, hprm, h⟩ := bindEqOk h
  obtain ⟨pri, hpri, h⟩ := bindEqOk h
  obtain ⟨hum, hhum, h⟩ := bindEqOk h
  obtain ⟨flc, hflc, h⟩ := bindEqOk h
  obtain ⟨flf, hflf, h⟩ := bindEqOk h
  obtain ⟨vkm, hvkm, h⟩ := bindEqOk h
  obtain ⟨vmi, hvmi, h⟩ := bindEqOk h
  obtain ⟨huv, huvh, h⟩ := bindEqOk h
  obtain ⟨gkp, hgkp, h⟩ := bindEqOk h
  obtain ⟨gmp, hgmp, h⟩ := bindEqOk h
  obtain ⟨lup, hlup, h⟩ := bindEqOk h
  simp only [pure, Except.pure, Except.ok.injEq] at h
  subst h
  refine ⟨?_, ?_, ?_, ?_, ?_, ?_, ?_, ?_, ?_, ?_, ?_, ?_, ?_, ?_, ?_, ?_, ?_⟩
  · intro hb
    rw [hb, vOptFloat_blank] at htc
    exact Except.noConfusion htc
  · intro hb
    rw [hb, vOptFloat_blank] at htf
    exact Except.noConfusion htf
  · intro hb
    rw [hb, Option.getD_some, vIntReq_blank] at hcl
    exact Except.noConfusion hcl
  · intro hb
    rw [hb, Option.getD_some, vFloatReq_blank] at hwk
    exact Except.noConfusion hwk
  · intro hb
    rw [get_numeric_blank curB _ hb] at hwdg
    simp only [vOptInt, Except.ok.injEq] at hwdg
    exact hwdg.symm
  · intro hb
    rw [get_numeric_blank curB _ hb] at hpmb
    simp only [vOptFloat, Except.ok.injEq] at hpmb
    exact hpmb.symm
  · intro hb
    rw [get_numeric_blank curB _ hb] at hpin
    simp only [vOptFloat, Except.ok.injEq] at hpin
    exact hpin.symm
  · intro hb
    rw [get_numeric_blank curB _ hb] at hprm
    simp only [vOptFloat, Except.ok.injEq] at hprm
    exact hprm.symm
  · intro hb
    rw [get_numeric_blank curB _ hb] at hpri
    simp only [vOptFloat, Except.ok.injEq] at hpri
    exact hpri.symm
  · intro hb
    rw [get_numeric_blank curB _ hb] at hhum
    simp only [vOptInt, Except.ok.injEq] at hhum
    exact hhum.symm
  · intro hb
    rw [get_numeric_blank curB _ hb] at hflc
    simp only [vOptFloat, Except.ok.injEq] at hflc
    exact hflc.symm
  · intro hb
    rw [get_numeric_blank curB _ hb] at hflf
    simp only [vOptFloat, Except.ok.injEq] at hflf
    exact hflf.symm
  · intro hb
    rw [get_numeric_blank curB _ hb] at hvkm
    simp only [vOptFloat, Except.ok.injEq] at hvkm
    exact hvkm.symm
  · intro hb
    rw [get_numeric_blank curB _ hb] at hvmi
    simp only [vOptFloat, Except.ok.injEq] at hvmi
    exact hvmi.symm
  · intro hb
    rw [get_numeric_blank curB _ hb] at huvh
    simp only [vOptFloat, Except.ok.injEq] at huvh
    exact huvh.symm
  · intro hb
    rw [get_numeric_blank curB _ hb] at hgkp
    simp only [vOptFloat, Except.ok.injEq] at hgkp
    exact hgkp.symm
  · intro hb
    rw [get_numeric_blank curB _ hb] at hgmp
    simp only [vOptFloat, Except.ok.injEq] at hgmp
    exact hgmp.symm

/-- C9 witness: a payload with a blank `pressure_mb` parses successfully with
`pressure_mb` absent. -/
theorem parse_blank_uniform_witness :
    ({ country := "UK", city := "London", clouds := 75, wind_speed_kph := 12 } : WeatherData).pressure_mb = none :=
  (parse_blank_uniform [("country", JVal.str "UK"), ("name", JVal.str "London")]
      [("pressure_mb", JVal.str ""), ("cloud", JVal.num 75), ("wind_kph", JVal.num 12)]
      { country := "UK", city := "London", clouds := 75, wind_speed_kph := 12 }
      rfl).2.2.2.2.2.1 rfl

end WeatherModule
